import Mathlib

/-!
Verification development for the sentiment-analysis product reviewer.

The repository's own code under `src/web/app.py` and `pages/1_Results.py` is
presentation glue: it calls an external `SentimentAnalyzer` (module
`src.models.model_integration`, not part of the provided sources) and stores
the results in the Streamlit session state.  The analyzer itself
(`analyze_reviews`, `create_visualizations`) is therefore modelled from the
specification, while `predict_sentiment_from_reviews`, the results-page
computation and the two "Try Again" handlers are embedded from the source.

Machine reals (classifier confidences, scores) are modelled as rationals;
no claim depends on floating-point rounding.
-/

/-- Sentiment labels, the three classes of the classifier. -/
inductive Label where
  | positive : Label
  | negative : Label
  | neutral : Label
deriving DecidableEq, Repr

/-- A scraped review record (spec §3): body text plus product metadata. -/
structure Review where
  body : String
  product_title : String
deriving DecidableEq, Repr

/-- A per-review classification: label and confidence in [0,1]. -/
structure Classification where
  label : Label
  confidence : ℚ
deriving DecidableEq, Repr

/-- The aggregate result of a batch analysis (spec §3). -/
structure AggregateResult where
  overall_sentiment : Label
  score : ℚ
  positive_count : ℕ
  negative_count : ℕ
  average_confidence : Option ℚ
  detailed_results : List (Review × Classification)
  model_name : String
deriving DecidableEq, Repr

/-- A classifier capability: per-review, fallible (spec §6:
`classify(text) -> Classification`, failures catchable per call). -/
abbrev Classifier := Review → Except String Classification

/-- Modelled from the spec: the per-review classification step of the missing
`SentimentAnalyzer.analyze_reviews`, including the §4.1 failure policy — a
classifier error for one review is recovered locally by substituting a
neutral, zero-confidence classification. -/
def classifyOne (c : Classifier) (r : Review) : Classification :=
  match c r with
  | Except.ok cl => cl
  | Except.error _ => ⟨Label.neutral, 0⟩

/-- The ordered (Review, Classification) detail list, one entry per input
review, in input order. -/
def detailFor (c : Classifier) (reviews : List Review) : List (Review × Classification) :=
  reviews.map (fun r => (r, classifyOne c r))

/-- Number of detail entries carrying a given label. -/
def countLabel (l : Label) (cls : List (Review × Classification)) : ℕ :=
  (cls.filter (fun p => p.2.label == l)).length

/-- Modelled from the spec: `SentimentAnalyzer.analyze_reviews` from the
missing module `src.models.model_integration`, i.e. spec §4.1
`analyze(reviews) -> AggregateResult`: empty input yields the default
neutral result; otherwise positive and negative classifications are
counted, the overall label is the majority among positive/negative with
ties broken toward neutral, the score is pos/(pos+neg) when that
denominator is nonzero and the 0.5 midpoint otherwise, and the average
confidence is the arithmetic mean of all confidences. -/
def analyze (c : Classifier) (modelName : String) (reviews : List Review) : AggregateResult :=
  match reviews with
  | [] => ⟨Label.neutral, 1/2, 0, 0, none, [], modelName⟩
  | r0 :: rest =>
    let cls := detailFor c (r0 :: rest)
    let pos := countLabel Label.positive cls
    let neg := countLabel Label.negative cls
    let overall := if neg < pos then Label.positive
      else if pos < neg then Label.negative else Label.neutral
    let score : ℚ := if pos + neg = 0 then 1/2 else (pos : ℚ) / ((pos : ℚ) + (neg : ℚ))
    let avg : ℚ := (cls.map (fun p => p.2.confidence)).sum / (cls.length : ℚ)
    ⟨overall, score, pos, neg, some avg, cls, modelName⟩

/-- Abstract chart objects returned by the analyzer's visualization step. -/
inductive Fig where
  | distribution : ℕ → ℕ → ℕ → Fig
  | scoreIndicator : ℚ → Fig
deriving DecidableEq, Repr

/-- Modelled from the spec: `SentimentAnalyzer.create_visualizations` from the
missing module `src.models.model_integration` (spec §4.1 visualization
derivation): a categorical three-bucket distribution and a numeric score
indicator, a pure data transformation of the aggregate result. -/
def create_visualizations (r : AggregateResult) : Fig × Fig :=
  (Fig.distribution r.positive_count r.negative_count
      (r.detailed_results.length - (r.positive_count + r.negative_count)),
   Fig.scoreIndicator r.score)

/-- Values stored in the Streamlit session state. -/
inductive SVal where
  | vstr : String → SVal
  | vfig : Fig → SVal
  | vbool : Bool → SVal
deriving DecidableEq, Repr

/-- The Streamlit session state `st.session_state`, a mutable string-keyed
map, embedded as a finite-support lookup function threaded explicitly. -/
abbrev SessionState := String → Option SVal

/-- `st.session_state[k] = v`. -/
def setKey (s : SessionState) (k : String) (v : SVal) : SessionState :=
  fun k2 => if k2 = k then some v else s k2

/-- The session state with no entries. -/
def emptySession : SessionState := fun _ => none

/-- Modelled from the spec: the decimal rendering `f"{avg_confidence:.2f}"`
of app.py line 48, abstracted to the rounded number of hundredths (the
exact decimal string of Python's float formatting is not claimed). -/
def formatConf (q : ℚ) : String := toString (round (q * 100) : ℤ)

/-- `predict_sentiment_from_reviews` (app.py lines 27-50): run the analyzer,
create the visualizations, store figures, model name and — only when truthy —
the formatted average confidence in the session state, and return the
result tuple.  The session state is threaded explicitly; `if avg_confidence:`
is Python truthiness, false for `None` and for `0.0`. -/
def predict_sentiment_from_reviews (c : Classifier) (m : String) (s : SessionState)
    (reviews : List Review) :
    (Label × ℚ × ℕ × ℕ × List (Review × Classification) × String) × SessionState :=
  let results := analyze c m reviews
  let figs := create_visualizations results
  let s1 := setKey s "sentiment_distribution" (SVal.vfig figs.1)
  let s2 := setKey s1 "sentiment_score" (SVal.vfig figs.2)
  let s3 := setKey s2 "model_name" (SVal.vstr results.model_name)
  let s4 := match results.average_confidence with
    | none => s3
    | some q => if q = 0 then s3 else setKey s3 "avg_confidence" (SVal.vstr (formatConf q))
  ((results.overall_sentiment, results.score, results.positive_count,
    results.negative_count, results.detailed_results, results.model_name), s4)

/-- The results computation of `show_results_page` (app.py lines 116-122, and
identically `pages/1_Results.py` lines 46-52): when reviews were scraped,
call `predict_sentiment_from_reviews`; otherwise use the literal defaults
`"neutral", 0.5, 0, 0, [], "No Model"`. -/
def show_results_page_compute (c : Classifier) (m : String) (s : SessionState)
    (reviews : List Review) :
    (Label × ℚ × ℕ × ℕ × List (Review × Classification) × String) × SessionState :=
  match reviews with
  | [] => ((Label.neutral, 1/2, 0, 0, [], "No Model"), s)
  | r0 :: rest => predict_sentiment_from_reviews c m s (r0 :: rest)

/-- The "Try Again" handler of app.py lines 153-158: delete every session key
except `current_view`, set `current_view` to `input`, set `page_refresh`. -/
def tryAgainApp (s : SessionState) : SessionState :=
  let deleted : SessionState := fun k => if k = "current_view" then s k else none
  let s1 := setKey deleted "current_view" (SVal.vstr "input")
  setKey s1 "page_refresh" (SVal.vbool true)

/-- The "Try Again" handler of `pages/1_Results.py` lines 79-82: delete every
session key. -/
def tryAgainResults (_s : SessionState) : SessionState :=
  fun _ => none

/-! ## Helper lemmas -/

theorem detailFor_length (c : Classifier) (reviews : List Review) :
    (detailFor c reviews).length = reviews.length :=
  List.length_map reviews _

theorem length_filter_add_length_filter_le {α : Type} (p q : α → Bool) (l : List α)
    (h : ∀ x, p x = true → q x = false) :
    (l.filter p).length + (l.filter q).length ≤ l.length := by
  induction l with
  | nil => simp
  | cons a t ih =>
    by_cases hp : p a = true
    · have hq := h a hp
      simp [List.filter_cons, hp, hq]
      omega
    · simp only [Bool.not_eq_true] at hp
      by_cases hq : q a = true
      · simp [List.filter_cons, hp, hq]
        omega
      · simp only [Bool.not_eq_true] at hq
        simp [List.filter_cons, hp, hq]
        omega

/-! ## Claims -/

/-- C3: on the empty review sequence the analysis yields exactly the default
result — overall sentiment neutral, score 0.5, both counts zero, average
confidence absent, empty detail list — and the results-page flow likewise
returns the literal neutral defaults rather than an error. -/
theorem analyze_empty_default (c : Classifier) (m : String) (s : SessionState) :
    analyze c m [] = ⟨Label.neutral, 1/2, 0, 0, none, [], m⟩ ∧
    (show_results_page_compute c m s []).1 =
      (Label.neutral, 1/2, 0, 0, [], "No Model") :=
  ⟨rfl, rfl⟩

/-- C6: for every review sequence, positive and negative counts together never
exceed the number of reviews processed, because neutral classifications are
counted in neither. -/
theorem counts_le_length (c : Classifier) (m : String) (reviews : List Review) :
    (analyze c m reviews).positive_count + (analyze c m reviews).negative_count
      ≤ reviews.length := by
  cases reviews with
  | nil => simp [analyze]
  | cons r0 rest =>
    show countLabel Label.positive (detailFor c (r0 :: rest))
        + countLabel Label.negative (detailFor c (r0 :: rest)) ≤ (r0 :: rest).length
    have hdisj : ∀ x : Review × Classification,
        (x.2.label == Label.positive) = true → (x.2.label == Label.negative) = false := by
      intro x hx
      rw [beq_iff_eq] at hx
      rw [hx]
      rfl
    have h := length_filter_add_length_filter_le
      (fun x => x.2.label == Label.positive) (fun x => x.2.label == Label.negative)
      (detailFor c (r0 :: rest)) hdisj
    have hlen := detailFor_length c (r0 :: rest)
    unfold countLabel
    omega

/-- C7: the detailed results list the (Review, Classification) pairs in
exactly the order of the input reviews: projecting the review component
recovers the input sequence. -/
theorem detailed_results_order (c : Classifier) (m : String) (reviews : List Review) :
    (analyze c m reviews).detailed_results.map Prod.fst = reviews := by
  cases reviews with
  | nil => rfl
  | cons r0 rest =>
    show (detailFor c (r0 :: rest)).map Prod.fst = r0 :: rest
    simp [detailFor, List.map_map, Function.comp_def]

theorem analyze_overall_of_ne (c : Classifier) (m : String) (reviews : List Review)
    (h : reviews ≠ []) :
    (analyze c m reviews).overall_sentiment =
      if (analyze c m reviews).negative_count
          < (analyze c m reviews).positive_count then Label.positive
      else if (analyze c m reviews).positive_count
          < (analyze c m reviews).negative_count then Label.negative
      else Label.neutral := by
  cases reviews with
  | nil => exact absurd rfl h
  | cons r0 rest => rfl

theorem analyze_score_of_ne (c : Classifier) (m : String) (reviews : List Review)
    (h : reviews ≠ []) :
    (analyze c m reviews).score =
      if (analyze c m reviews).positive_count
          + (analyze c m reviews).negative_count = 0 then 1/2
      else ((analyze c m reviews).positive_count : ℚ)
        / (((analyze c m reviews).positive_count : ℚ)
          + ((analyze c m reviews).negative_count : ℚ)) := by
  cases reviews with
  | nil => exact absurd rfl h
  | cons r0 rest => rfl

/-- C1: a classifier error on one review does not abort the batch: the
analysis still returns a result in which that review appears classified
as neutral with confidence 0, and every review of the batch has its
detail entry (no exception crosses the boundary — `analyze` is total). -/
theorem classifier_error_recovered (c : Classifier) (m : String) (reviews : List Review)
    (r : Review) (e : String) (hmem : r ∈ reviews) (herr : c r = Except.error e) :
    (r, (⟨Label.neutral, 0⟩ : Classification)) ∈ (analyze c m reviews).detailed_results ∧
    (analyze c m reviews).detailed_results.length = reviews.length := by
  cases reviews with
  | nil => cases hmem
  | cons r0 rest =>
    constructor
    · show (r, (⟨Label.neutral, 0⟩ : Classification))
        ∈ (r0 :: rest).map (fun x => (x, classifyOne c x))
      have hcl : classifyOne c r = ⟨Label.neutral, 0⟩ := by
        unfold classifyOne
        rw [herr]
      rw [← hcl]
      exact List.mem_map_of_mem _ hmem
    · exact detailFor_length c (r0 :: rest)

/-- A classifier that always signals an error (spec scenario C). -/
def failingClassifier : Classifier := fun _ => Except.error "classifier unavailable"

def scenarioCReview : Review := ⟨"unusable review body", "Some Product"⟩

/-- Witness for C1 at scenario C: a single review whose classifier call
fails still yields a result, with that item classified neutral at
confidence 0 and both counts 0. -/
theorem classifier_error_recovered_witness :
    scenarioCReview ∈ [scenarioCReview] ∧
    (scenarioCReview, (⟨Label.neutral, 0⟩ : Classification))
      ∈ (analyze failingClassifier "Sentiment Model" [scenarioCReview]).detailed_results ∧
    (analyze failingClassifier "Sentiment Model" [scenarioCReview]).positive_count = 0 ∧
    (analyze failingClassifier "Sentiment Model" [scenarioCReview]).negative_count = 0 :=
  ⟨by decide,
   (classifier_error_recovered failingClassifier "Sentiment Model" [scenarioCReview]
      scenarioCReview "classifier unavailable" (by decide) rfl).1,
   by decide, by decide⟩

/-- C4: on a non-empty batch the overall sentiment is the majority label
among positive and negative by count, with ties broken toward neutral. -/
theorem overall_majority (c : Classifier) (m : String) (reviews : List Review)
    (h : reviews ≠ []) :
    ((analyze c m reviews).negative_count < (analyze c m reviews).positive_count →
      (analyze c m reviews).overall_sentiment = Label.positive) ∧
    ((analyze c m reviews).positive_count < (analyze c m reviews).negative_count →
      (analyze c m reviews).overall_sentiment = Label.negative) ∧
    ((analyze c m reviews).positive_count = (analyze c m reviews).negative_count →
      (analyze c m reviews).overall_sentiment = Label.neutral) := by
  rw [analyze_overall_of_ne c m reviews h]
  refine ⟨?_, ?_, ?_⟩ <;> intro hlt <;> split_ifs <;>
    first
    | rfl
    | omega

/-- A classifier realizing spec scenario A: positive at 0.9 for the first
body, negative at 0.8 for the second, neutral at 0.5 otherwise. -/
def scenarioAClassifier : Classifier := fun r =>
  if r.body = "Great product, love it!" then Except.ok ⟨Label.positive, 9/10⟩
  else if r.body = "Terrible, broke in a day" then Except.ok ⟨Label.negative, 8/10⟩
  else Except.ok ⟨Label.neutral, 1/2⟩

def scenarioAReviews : List Review :=
  [⟨"Great product, love it!", "Some Product"⟩,
   ⟨"Terrible, broke in a day", "Some Product"⟩,
   ⟨"It is okay", "Some Product"⟩]

/-- Witness for C4 at scenario A: one positive, one negative and one neutral
classification give overall sentiment neutral (tie) with score 0.5. -/
theorem overall_majority_witness :
    scenarioAReviews ≠ [] ∧
    (analyze scenarioAClassifier "Sentiment Model" scenarioAReviews).positive_count = 1 ∧
    (analyze scenarioAClassifier "Sentiment Model" scenarioAReviews).negative_count = 1 ∧
    (analyze scenarioAClassifier "Sentiment Model" scenarioAReviews).overall_sentiment
      = Label.neutral ∧
    (analyze scenarioAClassifier "Sentiment Model" scenarioAReviews).score = 1/2 := by
  have hpos : (analyze scenarioAClassifier "Sentiment Model" scenarioAReviews).positive_count
      = 1 := by decide
  have hneg : (analyze scenarioAClassifier "Sentiment Model" scenarioAReviews).negative_count
      = 1 := by decide
  refine ⟨by decide, hpos, hneg,
    (overall_majority scenarioAClassifier "Sentiment Model" scenarioAReviews
      (by decide)).2.2 (by decide), ?_⟩
  rw [analyze_score_of_ne scenarioAClassifier "Sentiment Model" scenarioAReviews
    (by decide), hpos, hneg]
  norm_num

/-- C5: on a non-empty batch the score is pos/(pos+neg) when that denominator
is nonzero, and the 0.5 neutral midpoint otherwise. -/
theorem score_ratio (c : Classifier) (m : String) (reviews : List Review)
    (h : reviews ≠ []) :
    ((analyze c m reviews).positive_count + (analyze c m reviews).negative_count ≠ 0 →
      (analyze c m reviews).score =
        ((analyze c m reviews).positive_count : ℚ)
          / (((analyze c m reviews).positive_count : ℚ)
            + ((analyze c m reviews).negative_count : ℚ))) ∧
    ((analyze c m reviews).positive_count + (analyze c m reviews).negative_count = 0 →
      (analyze c m reviews).score = 1/2) := by
  rw [analyze_score_of_ne c m reviews h]
  constructor <;> intro hden <;> split_ifs <;>
    first
    | rfl
    | omega

/-- A classifier realizing spec scenario D together with
`scenarioDReviews`: 3 positive and 1 negative classification. -/
def scenarioDClassifier : Classifier := fun r =>
  if r.body = "bad one" then Except.ok ⟨Label.negative, 9/10⟩
  else Except.ok ⟨Label.positive, 9/10⟩

def scenarioDReviews : List Review :=
  [⟨"good one", "Some Product"⟩, ⟨"good two", "Some Product"⟩,
   ⟨"good three", "Some Product"⟩, ⟨"bad one", "Some Product"⟩]

/-- Witness for C5 at scenario D: 3 positive, 1 negative yields overall
sentiment positive and score 0.75. -/
theorem score_ratio_witness :
    scenarioDReviews ≠ [] ∧
    (analyze scenarioDClassifier "Sentiment Model" scenarioDReviews).positive_count
      + (analyze scenarioDClassifier "Sentiment Model" scenarioDReviews).negative_count ≠ 0 ∧
    (analyze scenarioDClassifier "Sentiment Model" scenarioDReviews).overall_sentiment
      = Label.positive ∧
    (analyze scenarioDClassifier "Sentiment Model" scenarioDReviews).score = 3/4 := by
  have hpos : (analyze scenarioDClassifier "Sentiment Model" scenarioDReviews).positive_count
      = 3 := by decide
  have hneg : (analyze scenarioDClassifier "Sentiment Model" scenarioDReviews).negative_count
      = 1 := by decide
  refine ⟨by decide, by decide, by decide, ?_⟩
  have h := (score_ratio scenarioDClassifier "Sentiment Model" scenarioDReviews
    (by decide)).1 (by decide)
  rw [h, hpos, hneg]
  norm_num

/-! ## Session-state behaviour of `predict_sentiment_from_reviews` -/

theorem predictState_frame (c : Classifier) (m : String) (s : SessionState)
    (reviews : List Review) (k : String)
    (h1 : k ≠ "sentiment_distribution") (h2 : k ≠ "sentiment_score")
    (h3 : k ≠ "model_name") (h4 : k ≠ "avg_confidence") :
    (predict_sentiment_from_reviews c m s reviews).2 k = s k := by
  cases havg : (analyze c m reviews).average_confidence with
  | none => simp [predict_sentiment_from_reviews, havg, setKey, h1, h2, h3, h4]
  | some q =>
    by_cases hq : q = 0 <;>
      simp [predict_sentiment_from_reviews, havg, setKey, hq, h1, h2, h3, h4]

theorem predictState_distribution (c : Classifier) (m : String) (s : SessionState)
    (reviews : List Review) :
    (predict_sentiment_from_reviews c m s reviews).2 "sentiment_distribution"
      = some (SVal.vfig (create_visualizations (analyze c m reviews)).1) := by
  cases havg : (analyze c m reviews).average_confidence with
  | none => simp [predict_sentiment_from_reviews, havg, setKey]
  | some q =>
    by_cases hq : q = 0 <;>
      simp [predict_sentiment_from_reviews, havg, setKey, hq]

theorem predictState_score_fig (c : Classifier) (m : String) (s : SessionState)
    (reviews : List Review) :
    (predict_sentiment_from_reviews c m s reviews).2 "sentiment_score"
      = some (SVal.vfig (create_visualizations (analyze c m reviews)).2) := by
  cases havg : (analyze c m reviews).average_confidence with
  | none => simp [predict_sentiment_from_reviews, havg, setKey]
  | some q =>
    by_cases hq : q = 0 <;>
      simp [predict_sentiment_from_reviews, havg, setKey, hq]

theorem predictState_model_name (c : Classifier) (m : String) (s : SessionState)
    (reviews : List Review) :
    (predict_sentiment_from_reviews c m s reviews).2 "model_name"
      = some (SVal.vstr (analyze c m reviews).model_name) := by
  cases havg : (analyze c m reviews).average_confidence with
  | none => simp [predict_sentiment_from_reviews, havg, setKey]
  | some q =>
    by_cases hq : q = 0 <;>
      simp [predict_sentiment_from_reviews, havg, setKey, hq]

theorem predictState_avg_falsy (c : Classifier) (m : String) (s : SessionState)
    (reviews : List Review)
    (h : (analyze c m reviews).average_confidence = none
      ∨ (analyze c m reviews).average_confidence = some 0) :
    (predict_sentiment_from_reviews c m s reviews).2 "avg_confidence"
      = s "avg_confidence" := by
  rcases h with h | h <;> simp [predict_sentiment_from_reviews, h, setKey]

theorem predictState_avg_truthy (c : Classifier) (m : String) (s : SessionState)
    (reviews : List Review) (q : ℚ)
    (h : (analyze c m reviews).average_confidence = some q) (hq : q ≠ 0) :
    (predict_sentiment_from_reviews c m s reviews).2 "avg_confidence"
      = some (SVal.vstr (formatConf q)) := by
  simp [predict_sentiment_from_reviews, h, hq, setKey]

/-- A classifier that always succeeds with a positive classification. -/
def okClassifier : Classifier := fun _ => Except.ok ⟨Label.positive, 9/10⟩

def oneReview : Review := ⟨"Great product", "Some Product"⟩

/-- C2 counterexample: `predict_sentiment_from_reviews` is not free of side
effects on shared state — on a concrete one-review input it changes the
ambient session state: the `model_name` entry, absent beforehand, is
present afterwards. -/
theorem predict_mutates_session :
    (predict_sentiment_from_reviews okClassifier "Sentiment Model" emptySession
        [oneReview]).2 "model_name" ≠ emptySession "model_name" := by
  rw [predictState_model_name]
  simp [emptySession]

/-- C2 (amended): the analysis operation's only side effect is writing the
display entries `sentiment_distribution`, `sentiment_score`, `model_name`
and (when truthy) `avg_confidence` into the session state; every other
session entry is left unchanged, and the pure aggregation core performs
no I/O. -/
theorem predict_writes_only_display_keys (c : Classifier) (m : String) (s : SessionState)
    (reviews : List Review) (k : String)
    (h1 : k ≠ "sentiment_distribution") (h2 : k ≠ "sentiment_score")
    (h3 : k ≠ "model_name") (h4 : k ≠ "avg_confidence") :
    (predict_sentiment_from_reviews c m s reviews).2 k = s k :=
  predictState_frame c m s reviews k h1 h2 h3 h4

/-- Witness for the amended C2: the `submitted_link` entry is untouched by
a concrete analysis call. -/
theorem predict_writes_only_display_keys_witness :
    ("submitted_link" : String) ≠ "sentiment_distribution" ∧
    ("submitted_link" : String) ≠ "sentiment_score" ∧
    ("submitted_link" : String) ≠ "model_name" ∧
    ("submitted_link" : String) ≠ "avg_confidence" ∧
    (predict_sentiment_from_reviews okClassifier "Sentiment Model" emptySession
        [oneReview]).2 "submitted_link" = emptySession "submitted_link" :=
  ⟨by decide, by decide, by decide, by decide,
   predict_writes_only_display_keys okClassifier "Sentiment Model" emptySession
     [oneReview] "submitted_link" (by decide) (by decide) (by decide) (by decide)⟩

/-- C8: with a deterministic classifier, running the analysis operation a
second time on the same review sequence yields the identical result tuple
and leaves the session state exactly as after the first run. -/
theorem predict_idempotent (c : Classifier) (m : String) (s : SessionState)
    (reviews : List Review) :
    predict_sentiment_from_reviews c m
        ((predict_sentiment_from_reviews c m s reviews).2) reviews
      = predict_sentiment_from_reviews c m s reviews := by
  have h1 : (predict_sentiment_from_reviews c m
      ((predict_sentiment_from_reviews c m s reviews).2) reviews).1
      = (predict_sentiment_from_reviews c m s reviews).1 := rfl
  have h2 : (predict_sentiment_from_reviews c m
      ((predict_sentiment_from_reviews c m s reviews).2) reviews).2
      = (predict_sentiment_from_reviews c m s reviews).2 := by
    funext k
    by_cases hk1 : k = "sentiment_distribution"
    · subst hk1
      rw [predictState_distribution, predictState_distribution]
    · by_cases hk2 : k = "sentiment_score"
      · subst hk2
        rw [predictState_score_fig, predictState_score_fig]
      · by_cases hk3 : k = "model_name"
        · subst hk3
          rw [predictState_model_name, predictState_model_name]
        · by_cases hk4 : k = "avg_confidence"
          · subst hk4
            cases havg : (analyze c m reviews).average_confidence with
            | none =>
              rw [predictState_avg_falsy c m _ reviews (Or.inl havg)]
            | some q =>
              by_cases hq : q = 0
              · subst hq
                rw [predictState_avg_falsy c m _ reviews (Or.inr havg)]
              · rw [predictState_avg_truthy c m _ reviews q havg hq,
                  predictState_avg_truthy c m s reviews q havg hq]
          · rw [predictState_frame c m _ reviews k hk1 hk2 hk3 hk4]
  exact Prod.ext h1 h2

/-- C9: the `avg_confidence` session entry is written only when the reported
average confidence is truthy — when the analyzer reports it absent or
exactly 0 the entry is left untouched, so a genuine zero average is
indistinguishable from an absent one at this interface. -/
theorem avg_confidence_truthiness_gate (c : Classifier) (m : String) (s : SessionState)
    (reviews : List Review) :
    ((analyze c m reviews).average_confidence = none
        ∨ (analyze c m reviews).average_confidence = some 0 →
      (predict_sentiment_from_reviews c m s reviews).2 "avg_confidence"
        = s "avg_confidence") ∧
    (∀ q, (analyze c m reviews).average_confidence = some q → q ≠ 0 →
      (predict_sentiment_from_reviews c m s reviews).2 "avg_confidence"
        = some (SVal.vstr (formatConf q))) :=
  ⟨fun h => predictState_avg_falsy c m s reviews h,
   fun q h hq => predictState_avg_truthy c m s reviews q h hq⟩

/-- Witness for C9: on the empty batch the analyzer reports no average
confidence and the `avg_confidence` entry stays absent. -/
theorem avg_confidence_truthiness_gate_witness :
    ((analyze okClassifier "Sentiment Model" ([] : List Review)).average_confidence = none
      ∨ (analyze okClassifier "Sentiment Model" ([] : List Review)).average_confidence
        = some 0) ∧
    (predict_sentiment_from_reviews okClassifier "Sentiment Model" emptySession
        ([] : List Review)).2 "avg_confidence" = emptySession "avg_confidence" :=
  ⟨Or.inl rfl,
   (avg_confidence_truthiness_gate okClassifier "Sentiment Model" emptySession []).1
     (Or.inl rfl)⟩

/-- C10: the app.py "Try Again" handler deletes every session entry except
`current_view` and `page_refresh` (which it sets afresh) and sets
`current_view` to `input`; the 1_Results.py handler deletes every entry;
after either, `submitted_link` is absent. -/
theorem try_again_handlers (s : SessionState) :
    tryAgainApp s "current_view" = some (SVal.vstr "input") ∧
    (∀ k, k ≠ "current_view" → k ≠ "page_refresh" → tryAgainApp s k = none) ∧
    (∀ k, tryAgainResults s k = none) ∧
    tryAgainApp s "submitted_link" = none ∧
    tryAgainResults s "submitted_link" = none := by
  refine ⟨?_, ?_, ?_, ?_, ?_⟩
  · simp [tryAgainApp, setKey]
  · intro k hk1 hk2
    simp [tryAgainApp, setKey, hk1, hk2]
  · intro k
    rfl
  · simp [tryAgainApp, setKey]
  · rfl

/-- A session state as produced by submitting a product link. -/
def sampleSession : SessionState :=
  setKey (setKey emptySession "submitted_link" (SVal.vstr "amazon-product-link"))
    "current_view" (SVal.vstr "results")

/-- Witness for C10: after either handler runs on a session holding a
submitted link, that link is gone. -/
theorem try_again_handlers_witness :
    ("submitted_link" : String) ≠ "current_view" ∧
    ("submitted_link" : String) ≠ "page_refresh" ∧
    tryAgainApp sampleSession "submitted_link" = none ∧
    tryAgainResults sampleSession "submitted_link" = none :=
  ⟨by decide, by decide,
   (try_again_handlers sampleSession).2.1 "submitted_link" (by decide) (by decide),
   (try_again_handlers sampleSession).2.2.2.2⟩
